import Mathlib

/-!
Profile configuration registry (`system_bt_ext/device/src/profile_config.cc`).

A shallow embedding of the Bluetooth profile feature registry: the name
resolver (`get_profile`, `get_feature`), the record list
(`profile_entry_fetch`, `profile_database_add_`), the entry builder
(`load_to_database`, `load_config`) and the query (`profile_feature_fetch`).

Conventions of the embedding.

* A byte is a `Nat`; a `char *` is a `List Nat` read as C reads it: the string
  ends at the first `0` byte, and reading past the end of the list yields the
  terminator `0`.
* `profile_conf_list` (a `list_t *`) is an `Option (List profile_db_entry_t)`;
  `none` is the `NULL` pointer.
* The payload union of a record is its 12 bytes, laid out as the C structs lay
  them out (two consecutive `char[VALUE_MAX_LENGTH]` members).  A write is
  performed byte for byte on these 12 bytes, also where it leaves the 6-byte
  member it was aimed at.  Bytes that a write addresses past the end of the
  union are written by the C code to the memory that follows the union; that
  memory belongs to no record of the embedding, so these bytes are counted
  (`memcpy_past`) but what they overwrite is not represented.
-/

namespace ProfileConfig

/-! ## C library primitives -/

/-- The C function `tolower` on ASCII bytes. -/
def tolower (c : Nat) : Nat := if 65 ≤ c ∧ c ≤ 90 then c + 32 else c

/-- The bytes of a string literal (without the terminator). -/
def str (s : String) : List Nat := s.toList.map Char.toNat

/-- The C function `strlen`: number of bytes before the first `0`. -/
def strlen : List Nat → Nat
  | [] => 0
  | c :: cs => if c = 0 then 0 else strlen cs + 1

/-- The C function `strncasecmp`: compare at most `n` bytes ignoring ASCII case,
stopping after a terminator common to both strings. -/
def strncasecmp : List Nat → List Nat → Nat → Int
  | _, _, 0 => 0
  | s1, s2, n + 1 =>
    if tolower (s1.headD 0) ≠ tolower (s2.headD 0) then
      (tolower (s1.headD 0) : Int) - (tolower (s2.headD 0) : Int)
    else if s1.headD 0 = 0 then 0
    else strncasecmp s1.tail s2.tail n

/-- The C function `memset` on the object `mem`, at byte offset `off`: byte `j`
of the object becomes `c` for `off ≤ j < off + n`. -/
def memset (mem : List Nat) (off c n : Nat) : List Nat :=
  (List.range mem.length).map fun j =>
    if off ≤ j ∧ j < off + n then c else mem.getD j 0

/-- The C function `memcpy` into the object `mem`, at byte offset `off`, of the
first `n` bytes of `src`: byte `off + i` of the object becomes byte `i` of
`src` for `i < n`.  The copy has no bound: the bytes with `off + i` past the
end of the object are those of `memcpy_past`. -/
def memcpy (mem : List Nat) (off : Nat) (src : List Nat) (n : Nat) : List Nat :=
  (List.range mem.length).map fun j =>
    if off ≤ j ∧ j < off + n then src.getD (j - off) 0 else mem.getD j 0

/-- Modelled from the spec: the enumeration `profile_t` of `profile_config.h`
(the header is not part of the sources); enumerators and their order as in
`profile_name_string_` and in section 3 of the specification.  The
enumerators are consecutive and none of them is `0`, so `assert(profile)`
holds for each of them and is not represented. -/
inductive profile_t
  | AVRCP_ID
  | PBAP_ID
  | MAP_ID
  | END_OF_PROFILE_LIST
  deriving DecidableEq

/-- Modelled from the spec: the enumeration `profile_info_t` of
`profile_config.h` (the header is not part of the sources); enumerators and
their order as in `profile_feature_string_` and in section 3 of the
specification. -/
inductive profile_info_t
  | VERSION
  | AVRCP_COVERART_SUPPORT
  | AVRCP_0103_SUPPORT
  | USE_SIM_SUPPORT
  | MAP_EMAIL_SUPPORT
  | PBAP_0102_SUPPORT
  | END_OF_FEATURE_LIST
  deriving DecidableEq

open profile_t profile_info_t

def VALUE_MAX_LENGTH : Nat := 6

/-- A key/value pair of the parsed file. -/
structure profile_entry_t where
  key : List Nat
  value : List Nat
  deriving DecidableEq

/-- A section of the parsed file. -/
structure profile_section_t where
  name : List Nat
  entries : List profile_entry_t
  deriving DecidableEq

/-- The parsed file. -/
structure config_t where
  sections : List profile_section_t
  deriving DecidableEq

/-- Byte offset of `avrcp_feature_t.avrcp_coverart_support` in the union. -/
def avrcp_coverart_support : Nat := 0
/-- Byte offset of `avrcp_feature_t.avrcp_0103_support` in the union. -/
def avrcp_0103_support : Nat := VALUE_MAX_LENGTH
/-- Byte offset of `pbap_feature_t.use_sim_support` in the union. -/
def use_sim_support : Nat := 0
/-- Byte offset of `pbap_feature_t.pbap_0102_support` in the union. -/
def pbap_0102_support : Nat := VALUE_MAX_LENGTH
/-- Byte offset of `map_feature_t.map_email_support` in the union. -/
def map_email_support : Nat := 0

/-- Size of the union `profile_feature_type`: the largest of its three
members, `2 * VALUE_MAX_LENGTH` bytes. -/
def PROFILE_FEATURE_TYPE_SIZE : Nat := 2 * VALUE_MAX_LENGTH

/-- A record of the database.  `version` is the `char *version` field (`none`
is `NULL`); `profile_feature_type` is the memory of the union. -/
structure profile_db_entry_t where
  profile_id : profile_t
  version : Option (List Nat)
  profile_feature_type : List Nat
  deriving DecidableEq

/-- The record `osi_calloc` returns, with `profile_id` assigned. -/
def osi_calloc (profile_id : profile_t) : profile_db_entry_t :=
  { profile_id := profile_id
    version := none
    profile_feature_type := List.replicate PROFILE_FEATURE_TYPE_SIZE 0 }

/-- The memory a pointer to the member at offset `off` points to. -/
def member (db_entry : profile_db_entry_t) (off : Nat) : List Nat :=
  db_entry.profile_feature_type.drop off

/-! ## Name resolver -/

def profile_name_string_ : profile_t → List Nat
  | AVRCP_ID => str "AVRCP_ID"
  | PBAP_ID => str "PBAP_ID"
  | MAP_ID => str "MAP_ID"
  | END_OF_PROFILE_LIST => str "END_OF_PROFILE_LIST"

def profile_feature_string_ : profile_info_t → List Nat
  | VERSION => str "VERSION"
  | AVRCP_COVERART_SUPPORT => str "AVRCP_COVERART_SUPPORT"
  | AVRCP_0103_SUPPORT => str "AVRCP_0103_SUPPORT"
  | USE_SIM_SUPPORT => str "USE_SIM_SUPPORT"
  | MAP_EMAIL_SUPPORT => str "MAP_EMAIL_SUPPORT"
  | PBAP_0102_SUPPORT => str "PBAP_0102_SUPPORT"
  | END_OF_FEATURE_LIST => str "END_OF_FEATURE_LIST"

/-- The function `get_profile`: the loop runs over the enumerators below
`END_OF_PROFILE_LIST` in declaration order; `none` is the result `-1`. -/
def get_profile (section_name : List Nat) : Option profile_t :=
  [AVRCP_ID, PBAP_ID, MAP_ID].find? fun profile_name =>
    decide (strncasecmp section_name (profile_name_string_ profile_name)
      (strlen section_name) = 0)

/-- The function `get_feature`: the loop runs over the enumerators below
`END_OF_FEATURE_LIST` in declaration order; `none` is the result `-1`. -/
def get_feature (key : List Nat) : Option profile_info_t :=
  [VERSION, AVRCP_COVERART_SUPPORT, AVRCP_0103_SUPPORT, USE_SIM_SUPPORT,
    MAP_EMAIL_SUPPORT, PBAP_0102_SUPPORT].find? fun feature_name =>
    decide (strncasecmp key (profile_feature_string_ feature_name) (strlen key) = 0)

/-! ## Database -/

/-- The node walk of `profile_entry_fetch`. -/
def fetch_walk (profile : profile_t) : List profile_db_entry_t → Option profile_db_entry_t
  | [] => none
  | db_entry :: rest =>
    if profile ≠ db_entry.profile_id then fetch_walk profile rest else some db_entry

/-- The function `profile_entry_fetch`: the first record tagged `profile`, or
`NULL` (`none`) when the list pointer is `NULL`, the list is empty or no
record has the tag. -/
def profile_entry_fetch (profile_conf_list : Option (List profile_db_entry_t))
    (profile : profile_t) : Option profile_db_entry_t :=
  match profile_conf_list with
  | none => none
  | some l => fetch_walk profile l

/-- The function `profile_database_add_`. -/
def profile_database_add_ (profile_conf_list : Option (List profile_db_entry_t))
    (db_entry : profile_db_entry_t) : Option (List profile_db_entry_t) :=
  match profile_entry_fetch profile_conf_list db_entry.profile_id with
  | none =>
    match profile_conf_list with
    | some l => some (l ++ [db_entry])
    | none => none
  | some _ => profile_conf_list

/-- The function `profile_feature_fetch`. -/
def profile_feature_fetch (profile_conf_list : Option (List profile_db_entry_t))
    (profile : profile_t) (feature_name : profile_info_t) : Bool :=
  match profile_entry_fetch profile_conf_list profile with
  | none => false
  | some db_entry =>
    match profile with
    | AVRCP_ID =>
      match feature_name with
      | AVRCP_COVERART_SUPPORT =>
        decide (strncasecmp (str "true") (member db_entry avrcp_coverart_support)
          (strlen (str "true")) = 0)
      | AVRCP_0103_SUPPORT =>
        decide (strncasecmp (str "true") (member db_entry avrcp_0103_support)
          (strlen (str "true")) = 0)
      | _ => false
    | PBAP_ID =>
      match feature_name with
      | USE_SIM_SUPPORT =>
        decide (strncasecmp (str "true") (member db_entry use_sim_support)
          (strlen (str "true")) = 0)
      | PBAP_0102_SUPPORT =>
        decide (strncasecmp (str "true") (member db_entry pbap_0102_support)
          (strlen (str "true")) = 0)
      | _ => false
    | MAP_ID =>
      match feature_name with
      | MAP_EMAIL_SUPPORT =>
        decide (strncasecmp (str "true") (member db_entry map_email_support)
          (strlen (str "true")) = 0)
      | _ => false
    | _ => false

/-! ## Entry builder -/

/-- The two statements of a slot writer of `load_to_database`:
`memset(&member, 0, VALUE_MAX_LENGTH); memcpy(&member, value, strlen(value));`
on the union of `entry`. -/
def slot_write (entry : profile_db_entry_t) (off : Nat) (value : List Nat) :
    profile_db_entry_t :=
  { entry with
    profile_feature_type :=
      memcpy (memset entry.profile_feature_type off 0 VALUE_MAX_LENGTH) off value
        (strlen value) }

/-- Writing through a pointer obtained from `profile_entry_fetch`: the first
record tagged `profile` becomes `db_entry`. -/
def store_walk (profile : profile_t) (db_entry : profile_db_entry_t) :
    List profile_db_entry_t → List profile_db_entry_t
  | [] => []
  | e :: rest =>
    if profile ≠ e.profile_id then e :: store_walk profile db_entry rest
    else db_entry :: rest

/-- The list after the record `entry` points to has been written: a fetched
record lives in the list and is changed in place, a fresh one does not. -/
def store (profile_conf_list : Option (List profile_db_entry_t)) (profile : profile_t)
    (fetched : Option profile_db_entry_t) (entry : profile_db_entry_t) :
    Option (List profile_db_entry_t) :=
  match fetched with
  | some _ => profile_conf_list.map (store_walk profile entry)
  | none => profile_conf_list

/-- The function `load_to_database`: the list pointer after the call (the
function itself always returns `true`). -/
def load_to_database (profile_conf_list : Option (List profile_db_entry_t))
    (profile_id : profile_t) (key value : List Nat) : Option (List profile_db_entry_t) :=
  match profile_id with
  | AVRCP_ID =>
    let fetched := profile_entry_fetch profile_conf_list AVRCP_ID
    let entry := fetched.getD (osi_calloc AVRCP_ID)
    let entry :=
      match get_feature key with
      | some AVRCP_0103_SUPPORT => slot_write entry avrcp_0103_support value
      | some AVRCP_COVERART_SUPPORT => slot_write entry avrcp_coverart_support value
      | _ => entry
    profile_database_add_ (store profile_conf_list AVRCP_ID fetched entry) entry
  | PBAP_ID =>
    let fetched := profile_entry_fetch profile_conf_list PBAP_ID
    let entry := fetched.getD (osi_calloc PBAP_ID)
    let entry :=
      match get_feature key with
      | some PBAP_0102_SUPPORT => slot_write entry pbap_0102_support value
      | some USE_SIM_SUPPORT => slot_write entry use_sim_support value
      | _ => entry
    profile_database_add_ (store profile_conf_list PBAP_ID fetched entry) entry
  | MAP_ID =>
    let fetched := profile_entry_fetch profile_conf_list MAP_ID
    let entry := fetched.getD (osi_calloc MAP_ID)
    let entry :=
      match get_feature key with
      | some MAP_EMAIL_SUPPORT => slot_write entry map_email_support value
      | _ => entry
    profile_database_add_ (store profile_conf_list MAP_ID fetched entry) entry
  | _ => profile_conf_list

/-- The inner loop of `load_config`: the entries of one section. -/
def load_section (profile_id : profile_t) (entries : List profile_entry_t)
    (profile_conf_list : Option (List profile_db_entry_t)) :
    Option (List profile_db_entry_t) :=
  entries.foldl (fun db entry => load_to_database db profile_id entry.key entry.value)
    profile_conf_list

/-- The body of the outer loop of `load_config`, for one section. -/
def section_step (db : Option (List profile_db_entry_t)) (sec : profile_section_t) :
    Option (List profile_db_entry_t) :=
  match get_profile sec.name with
  | some profile_id => load_section profile_id sec.entries db
  | none => db

/-- The function `load_config` on the parsed file `config`
(`profile_config_init` succeeded): the list pointer after the loops. -/
def load_config (config : config_t) (profile_conf_list : Option (List profile_db_entry_t)) :
    Option (List profile_db_entry_t) :=
  config.sections.foldl section_step profile_conf_list

/-- The list `list_new` returns. -/
def list_new : Option (List profile_db_entry_t) := some []

/-! ## Specification vocabulary -/

/-- The union member that holds feature `F` of profile `P`, for the five
pairs that `load_to_database` writes and `profile_feature_fetch` reads. -/
def slot_of : profile_t → profile_info_t → Option Nat
  | AVRCP_ID, AVRCP_COVERART_SUPPORT => some avrcp_coverart_support
  | AVRCP_ID, AVRCP_0103_SUPPORT => some avrcp_0103_support
  | PBAP_ID, USE_SIM_SUPPORT => some use_sim_support
  | PBAP_ID, PBAP_0102_SUPPORT => some pbap_0102_support
  | MAP_ID, MAP_EMAIL_SUPPORT => some map_email_support
  | _, _ => none

/-- The `VALUE_MAX_LENGTH` bytes of the member at offset `off`. -/
def slot (db_entry : profile_db_entry_t) (off : Nat) : List Nat :=
  (member db_entry off).take VALUE_MAX_LENGTH

/-- The text `s` begins, ignoring case, with the four characters "true". -/
def begins_with_true (s : List Nat) : Prop :=
  (s.take 4).map tolower = str "true"

instance (s : List Nat) : Decidable (begins_with_true s) := by
  unfold begins_with_true; infer_instance

/-! ## Proof vocabulary: scenarios, the effect of one call, related lists -/

/-- The slot writer `load_to_database` selects for the key under profile `P`,
applied to `entry`; a key that selects none leaves `entry` as it is. -/
def write_of (P : profile_t) (key value : List Nat) (entry : profile_db_entry_t) :
    profile_db_entry_t :=
  match (get_feature key).bind (slot_of P) with
  | some off => slot_write entry off value
  | none => entry

/-- The list once the record `e` of profile `P` is in place: it replaces the
first record tagged `P`, or is appended when there is none. -/
def put (P : profile_t) (e : profile_db_entry_t) (l : List profile_db_entry_t) :
    List profile_db_entry_t :=
  match fetch_walk P l with
  | some _ => store_walk P e l
  | none => l ++ [e]

/-- The values, in file order, of the entries of `config` whose section
resolves to `P` and whose key resolves to `F`. -/
def values_for (config : config_t) (P : profile_t) (F : profile_info_t) : List (List Nat) :=
  config.sections.flatMap fun sec =>
    if get_profile sec.name = some P then
      (sec.entries.filter fun e => decide (get_feature e.key = some F)).map (·.value)
    else []

/-- A file whose only entry sets the AVRCP cover-art key to a ten-character
value. -/
def config_coverart_long : config_t :=
  ⟨[⟨str "AVRCP_ID", [⟨str "AVRCP_COVERART_SUPPORT", str "xxxxxxtrue"⟩]⟩]⟩

/-- A file whose only entry sets the PBAP SIM key to a ten-character value. -/
def config_use_sim_long : config_t :=
  ⟨[⟨str "PBAP_ID", [⟨str "USE_SIM_SUPPORT", str "false-true"⟩]⟩]⟩

/-- Scenario S3 of the specification. -/
def config_S3 : config_t :=
  ⟨[⟨str "MAP_ID", [⟨str "MAP_EMAIL_SUPPORT", str "truthful"⟩]⟩]⟩

/-- Scenario S6 of the specification. -/
def config_S6 : config_t :=
  ⟨[⟨str "AVRCP_ID", [⟨str "AVRCP_COVERART_SUPPORT", str "true"⟩]⟩,
    ⟨str "AVRCP_ID", [⟨str "AVRCP_0103_SUPPORT", str "true"⟩]⟩]⟩

/-- A file whose only entry sets the MAP e-mail key to a seven-character
value. -/
def config_email_seven : config_t :=
  ⟨[⟨str "MAP_ID", [⟨str "MAP_EMAIL_SUPPORT", str "enabled"⟩]⟩]⟩

/-- A file that enables AVRCP 1.0.3 and then sets the cover-art key to an
eight-character value. -/
def config_0103_then_coverart : config_t :=
  ⟨[⟨str "AVRCP_ID", [⟨str "AVRCP_0103_SUPPORT", str "true"⟩,
      ⟨str "AVRCP_COVERART_SUPPORT", str "disabled"⟩]⟩]⟩

/-- The list after applying `load_to_database` to a sequence of
(profile, key, value) entries, in order. -/
def load_all (profile_conf_list : Option (List profile_db_entry_t))
    (entries : List (profile_t × List Nat × List Nat)) : Option (List profile_db_entry_t) :=
  entries.foldl (fun db e => load_to_database db e.1 e.2.1 e.2.2) profile_conf_list

/-- The list `b` answers every fetch as `a` does, except that it may hold a
fresh all-zero record where `a` holds none. -/
def simDb (a b : Option (List profile_db_entry_t)) : Prop :=
  a.isSome = b.isSome ∧
    ∀ Q, profile_entry_fetch b Q = profile_entry_fetch a Q ∨
      (profile_entry_fetch a Q = none ∧ profile_entry_fetch b Q = some (osi_calloc Q))

/-! ## Vocabulary of the resolver, the life cycle and the installed records -/

/-- The five (profile, feature) pairs of section 6 of the specification. -/
def listed_pairs : List (profile_t × profile_info_t) :=
  [(AVRCP_ID, AVRCP_COVERART_SUPPORT), (AVRCP_ID, AVRCP_0103_SUPPORT),
    (PBAP_ID, USE_SIM_SUPPORT), (PBAP_ID, PBAP_0102_SUPPORT), (MAP_ID, MAP_EMAIL_SUPPORT)]

/-- The text of the C string `s` is, ignoring case, an initial part of the
name `t`: the name is at least as long as the text and agrees with it on the
length of the text. -/
def begins_name (s t : List Nat) : Prop :=
  strlen s ≤ t.length ∧ (s.take (strlen s)).map tolower = (t.take (strlen s)).map tolower

instance (s t : List Nat) : Decidable (begins_name s t) := by
  unfold begins_name; infer_instance

/-- The agreement the specification describes: the text of `s` and the name
`t` agree, ignoring case, on their first min(len(s), len(t)) characters. -/
def agrees_on_min (s t : List Nat) : Prop :=
  ((s.take (strlen s)).take (min (strlen s) t.length)).map tolower =
    (t.take (min (strlen s) t.length)).map tolower

instance (s t : List Nat) : Decidable (agrees_on_min s t) := by
  unfold agrees_on_min; infer_instance

/-- The section resolver as the specification words it: the first profile in
declaration order whose name agrees with the input on min(len, len)
characters. -/
def get_profile_on_min (section_name : List Nat) : Option profile_t :=
  [AVRCP_ID, PBAP_ID, MAP_ID].find? fun p =>
    decide (agrees_on_min section_name (profile_name_string_ p))

/-- The text `s` is an upper/lower-case variant of the name `t`. -/
def case_variant (s t : List Nat) : Prop :=
  s.map tolower = t.map tolower

instance (s t : List Nat) : Decidable (case_variant s t) := by
  unfold case_variant; infer_instance

/-- What the environment answers to `profile_config_init`: for the preferred
path `PROFILE_CONF_FILE_PATH` and the system default
`PROFILE_CONF_BASE_FILE_PATH`, whether `stat` succeeds with a non-zero size
and what `config_new` returns (`none` is `NULL`), and whether
`config_new_empty` succeeds.  The effect of `config_save` on the file system
is not represented. -/
structure env_t where
  preferred_stat : Bool
  preferred_new : Option config_t
  base_stat : Bool
  base_new : Option config_t
  new_empty : Bool

/-- Modelled from the spec: `config_new_empty` of the external parser, which
returns a tree without sections, or `NULL` when it fails. -/
def config_new_empty (env : env_t) : Option config_t :=
  if env.new_empty then some ⟨[]⟩ else none

/-- The function `profile_config_init`: the value it leaves in the global
`config`; it returns `-1` exactly when that value is `NULL` (`none`). -/
def profile_config_init (env : env_t) (config : Option config_t) : Option config_t :=
  let config :=
    if env.preferred_stat then env.preferred_new
    else if env.base_stat then env.base_new
    else config
  match config with
  | some c => some c
  | none => config_new_empty env

/-- The globals of the module. -/
structure state_t where
  profile_conf_list : Option (List profile_db_entry_t)
  config : Option config_t

/-- The globals before the first call: both pointers are `NULL`. -/
def initial_state : state_t := ⟨none, none⟩

/-- The function `load_config` together with its call of
`profile_config_init`, on the globals. -/
def load_config_with_init (env : env_t) (s : state_t) : state_t :=
  match profile_config_init env s.config with
  | some c => ⟨load_config c s.profile_conf_list, some c⟩
  | none => ⟨s.profile_conf_list, none⟩

/-- The function `profile_lazy_init_`. -/
def profile_lazy_init_ (env : env_t) (s : state_t) : state_t :=
  match s.profile_conf_list with
  | none => load_config_with_init env ⟨list_new, s.config⟩
  | some _ => s

/-- The function `profile_conf_clean_up` (with `profile_config_cleanup`). -/
def profile_conf_clean_up (_s : state_t) : state_t := ⟨none, none⟩

/-- The calls of `load_to_database` that `load_config` makes for `config`,
in order: one (profile, key, value) per entry of a recognised section. -/
def entries_of (config : config_t) : List (profile_t × List Nat × List Nat) :=
  config.sections.flatMap fun sec =>
    match get_profile sec.name with
    | some profile_id => sec.entries.map fun e => (profile_id, e.key, e.value)
    | none => []

/-- A list with the PBAP record whose 1.0.2 slot holds "true". -/
def db_pbap_0102_true : Option (List profile_db_entry_t) :=
  some [⟨PBAP_ID, none, [0, 0, 0, 0, 0, 0] ++ str "true" ++ [0, 0]⟩]

/-! ## Lemmas: C strings -/

theorem str_true : str "true" = [116, 114, 117, 101] := by decide

theorem strlen_true : strlen (str "true") = 4 := by decide

theorem strncasecmp_succ_eq_zero (s1 s2 : List Nat) (n : Nat) :
    strncasecmp s1 s2 (n + 1) = 0 ↔
      tolower (s1.headD 0) = tolower (s2.headD 0) ∧
        (s1.headD 0 = 0 ∨ strncasecmp s1.tail s2.tail n = 0) := by
  rw [strncasecmp]
  split_ifs with h h0
  · constructor
    · intro hz
      exact absurd (by omega) h
    · intro hz
      exact absurd hz.1 h
  · constructor
    · intro _
      exact ⟨not_not.mp h, Or.inl h0⟩
    · intro _
      rfl
  · constructor
    · intro hz
      exact ⟨not_not.mp h, Or.inr hz⟩
    · rintro ⟨_, hz | hz⟩
      · exact absurd hz h0
      · exact hz

theorem tolower_zero : tolower 0 = 0 := by decide

theorem strncasecmp_zero (s1 s2 : List Nat) : strncasecmp s1 s2 0 = 0 := by
  rw [strncasecmp]

theorem tolower_eq_zero (c : Nat) : tolower c = 0 ↔ c = 0 := by
  unfold tolower
  split_ifs with h <;> constructor <;> intro h1 <;> first | omega | exact h1.elim

/-- The comparison `profile_feature_fetch` makes, byte by byte. -/
theorem strncasecmp_true (s : List Nat) :
    strncasecmp (str "true") s (strlen (str "true")) = 0 ↔
      tolower (s.getD 0 0) = 116 ∧ tolower (s.getD 1 0) = 114 ∧
        tolower (s.getD 2 0) = 117 ∧ tolower (s.getD 3 0) = 101 := by
  rw [str_true, show strlen [116, 114, 117, 101] = 4 from by decide]
  have e1 : tolower 116 = 116 := by decide
  have e2 : tolower 114 = 114 := by decide
  have e3 : tolower 117 = 117 := by decide
  have e4 : tolower 101 = 101 := by decide
  have step : ∀ (n x : Nat) (xs t : List Nat), strncasecmp (x :: xs) t (n + 1) = 0 ↔
      tolower x = tolower (t.headD 0) ∧ (x = 0 ∨ strncasecmp xs t.tail n = 0) :=
    fun n x xs t => strncasecmp_succ_eq_zero (x :: xs) t n
  rw [step 3, step 2, step 1, step 0, strncasecmp_zero, e1, e2, e3, e4]
  rcases s with _ | ⟨a, _ | ⟨b, _ | ⟨c, _ | ⟨d, rest⟩⟩⟩⟩ <;>
    simp [tolower_zero, eq_comm]

theorem begins_with_true_iff (s : List Nat) :
    begins_with_true s ↔
      tolower (s.getD 0 0) = 116 ∧ tolower (s.getD 1 0) = 114 ∧
        tolower (s.getD 2 0) = 117 ∧ tolower (s.getD 3 0) = 101 := by
  unfold begins_with_true
  rw [str_true]
  rcases s with _ | ⟨a, _ | ⟨b, _ | ⟨c, _ | ⟨d, rest⟩⟩⟩⟩ <;>
    simp [tolower_zero, and_assoc]

theorem strncasecmp_true_iff (s : List Nat) :
    strncasecmp (str "true") s (strlen (str "true")) = 0 ↔ begins_with_true s := by
  rw [strncasecmp_true, begins_with_true_iff]

/-! ## Lemmas: memory -/

theorem memset_length (mem : List Nat) (off c n : Nat) :
    (memset mem off c n).length = mem.length := by
  simp [memset]

theorem memcpy_length (mem : List Nat) (off : Nat) (src : List Nat) (n : Nat) :
    (memcpy mem off src n).length = mem.length := by
  simp [memcpy]

theorem memset_getD (mem : List Nat) (off c n j : Nat) (hj : j < mem.length) :
    (memset mem off c n).getD j 0 = if off ≤ j ∧ j < off + n then c else mem.getD j 0 := by
  simp [memset, List.getD_eq_getElem?_getD, List.getElem?_map, List.getElem?_range hj]

theorem memcpy_getD (mem : List Nat) (off : Nat) (src : List Nat) (n j : Nat)
    (hj : j < mem.length) :
    (memcpy mem off src n).getD j 0 =
      if off ≤ j ∧ j < off + n then src.getD (j - off) 0 else mem.getD j 0 := by
  simp [memcpy, List.getD_eq_getElem?_getD, List.getElem?_map, List.getElem?_range hj]

/-- What a slot writer leaves in the record. -/
theorem slot_write_spec (entry : profile_db_entry_t) (off : Nat) (value : List Nat) :
    (slot_write entry off value).profile_id = entry.profile_id ∧
      (slot_write entry off value).version = entry.version ∧
      (slot_write entry off value).profile_feature_type.length =
        entry.profile_feature_type.length ∧
      ∀ j, j < entry.profile_feature_type.length →
        (slot_write entry off value).profile_feature_type.getD j 0 =
          if off ≤ j ∧ j < off + strlen value then value.getD (j - off) 0
          else if off ≤ j ∧ j < off + VALUE_MAX_LENGTH then 0
          else entry.profile_feature_type.getD j 0 := by
  refine ⟨rfl, rfl, ?_, fun j hj => ?_⟩
  · simp [slot_write, memcpy_length, memset_length]
  · show (memcpy (memset entry.profile_feature_type off 0 VALUE_MAX_LENGTH) off value
      (strlen value)).getD j 0 = _
    rw [memcpy_getD _ _ _ _ _ (by rw [memset_length]; exact hj), memset_getD _ _ _ _ _ hj]

/-! ## Lemmas: the record list -/

theorem fetch_walk_eq_find (profile : profile_t) (l : List profile_db_entry_t) :
    fetch_walk profile l = l.find? fun e => decide (e.profile_id = profile) := by
  induction l with
  | nil => rfl
  | cons e rest ih =>
    by_cases h : profile = e.profile_id
    · simp [fetch_walk, h]
    · have h2 : ¬ e.profile_id = profile := fun h3 => h h3.symm
      simp [fetch_walk, h, h2, ih]

theorem fetch_walk_some {profile : profile_t} {l : List profile_db_entry_t}
    {r : profile_db_entry_t} (h : fetch_walk profile l = some r) :
    r.profile_id = profile ∧ r ∈ l := by
  rw [fetch_walk_eq_find] at h
  have h1 := List.find?_some h
  exact ⟨by simpa using h1, List.mem_of_find?_eq_some h⟩

theorem fetch_walk_eq_none {profile : profile_t} {l : List profile_db_entry_t} :
    fetch_walk profile l = none ↔ ∀ r ∈ l, r.profile_id ≠ profile := by
  rw [fetch_walk_eq_find]
  simp [List.find?_eq_none]

theorem fetch_walk_append (profile : profile_t) (l1 l2 : List profile_db_entry_t) :
    fetch_walk profile (l1 ++ l2) = (fetch_walk profile l1).or (fetch_walk profile l2) := by
  simp [fetch_walk_eq_find, List.find?_append]

theorem fetch_walk_store_walk (P Q : profile_t) (e : profile_db_entry_t)
    (he : e.profile_id = P) (l : List profile_db_entry_t) :
    fetch_walk Q (store_walk P e l) =
      if Q = P then (fetch_walk P l).map (fun _ => e) else fetch_walk Q l := by
  induction l with
  | nil => simp [store_walk, fetch_walk]
  | cons a rest ih =>
    by_cases hP : P = a.profile_id
    · by_cases hQ : Q = P
      · subst hQ; simp [store_walk, fetch_walk, hP, he]
      · have h1 : ¬ Q = e.profile_id := by rw [he]; exact hQ
        have h2 : ¬ Q = a.profile_id := by rw [← hP]; exact hQ
        simp [store_walk, fetch_walk, hP, hQ, h1, h2]
    · by_cases hQ : Q = P
      · subst hQ; simp [store_walk, fetch_walk, hP, ih]
      · by_cases hQa : Q = a.profile_id
        · have h3 : ¬ a.profile_id = P := fun h => hP h.symm
          simp [store_walk, fetch_walk, hP, hQa, h3]
        · simp [store_walk, fetch_walk, hP, hQ, hQa, ih]

theorem store_walk_tags (P : profile_t) (e : profile_db_entry_t) (he : e.profile_id = P)
    (l : List profile_db_entry_t) :
    (store_walk P e l).map (·.profile_id) = l.map (·.profile_id) := by
  induction l with
  | nil => rfl
  | cons a rest ih =>
    by_cases hP : P = a.profile_id
    · have h1 : store_walk P e (a :: rest) = e :: rest := by simp [store_walk, hP]
      rw [h1]
      simp [he.trans hP]
    · simp [store_walk, hP, ih]

theorem store_walk_self {P : profile_t} {l : List profile_db_entry_t} {r : profile_db_entry_t}
    (h : fetch_walk P l = some r) : store_walk P r l = l := by
  induction l with
  | nil => rfl
  | cons a rest ih =>
    by_cases hP : P = a.profile_id
    · simp [fetch_walk, hP] at h
      simp [store_walk, hP, h]
    · simp [fetch_walk, hP] at h
      simp [store_walk, hP, ih h]

/-! ## The effect of one `load_to_database` call -/

theorem write_of_tag (P : profile_t) (key value : List Nat) (entry : profile_db_entry_t) :
    (write_of P key value entry).profile_id = entry.profile_id := by
  unfold write_of
  split <;> rfl

theorem write_of_length (P : profile_t) (key value : List Nat) (entry : profile_db_entry_t) :
    (write_of P key value entry).profile_feature_type.length =
      entry.profile_feature_type.length := by
  unfold write_of
  split
  · exact (slot_write_spec entry _ value).2.2.1
  · rfl

theorem getD_calloc_tag (P : profile_t) (l : List profile_db_entry_t) :
    ((fetch_walk P l).getD (osi_calloc P)).profile_id = P := by
  cases h : fetch_walk P l with
  | none => rfl
  | some r => exact (fetch_walk_some h).1

theorem add_store (P : profile_t) (l : List profile_db_entry_t) (e : profile_db_entry_t)
    (he : e.profile_id = P) :
    profile_database_add_ (store (some l) P (fetch_walk P l) e) e = some (put P e l) := by
  unfold put store profile_database_add_ profile_entry_fetch
  cases h : fetch_walk P l with
  | some r =>
    simp only [Option.map_some', he, fetch_walk_store_walk P P e he, h, if_true]
  | none =>
    simp only [he, h]

/-- One call of `load_to_database` on a constructed list. -/
theorem load_to_database_some (l : List profile_db_entry_t) (P : profile_t)
    (key value : List Nat) :
    load_to_database (some l) P key value =
      if P = END_OF_PROFILE_LIST then some l
      else some (put P (write_of P key value ((fetch_walk P l).getD (osi_calloc P))) l) := by
  have tag : ∀ Q : profile_t,
      (write_of Q key value ((fetch_walk Q l).getD (osi_calloc Q))).profile_id = Q :=
    fun Q => (write_of_tag Q key value _).trans (getD_calloc_tag Q l)
  cases P with
  | END_OF_PROFILE_LIST => simp [load_to_database]
  | AVRCP_ID =>
    rw [if_neg (by decide), ← add_store AVRCP_ID l _ (tag AVRCP_ID)]
    unfold load_to_database write_of profile_entry_fetch
    cases get_feature key with
    | none => rfl
    | some G => cases G <;> rfl
  | PBAP_ID =>
    rw [if_neg (by decide), ← add_store PBAP_ID l _ (tag PBAP_ID)]
    unfold load_to_database write_of profile_entry_fetch
    cases get_feature key with
    | none => rfl
    | some G => cases G <;> rfl
  | MAP_ID =>
    rw [if_neg (by decide), ← add_store MAP_ID l _ (tag MAP_ID)]
    unfold load_to_database write_of profile_entry_fetch
    cases get_feature key with
    | none => rfl
    | some G => cases G <;> rfl

/-- One call of `load_to_database` while the list pointer is `NULL`: the
record is built and written but never linked. -/
theorem load_to_database_none (P : profile_t) (key value : List Nat) :
    load_to_database none P key value = none := by
  cases P <;> rfl

/-! ## The query, in terms of the slot it reads -/

theorem profile_feature_fetch_eq (db : Option (List profile_db_entry_t)) (P : profile_t)
    (F : profile_info_t) :
    profile_feature_fetch db P F =
      match profile_entry_fetch db P, slot_of P F with
      | some r, some off => decide (begins_with_true (member r off))
      | _, _ => false := by
  unfold profile_feature_fetch
  cases profile_entry_fetch db P with
  | none => rfl
  | some r => cases P <;> cases F <;> simp [slot_of, strncasecmp_true_iff]

theorem begins_with_true_slot (r : profile_db_entry_t) (off : Nat) :
    ((slot r off).take 4).map tolower = str "true" ↔ begins_with_true (member r off) := by
  unfold slot begins_with_true VALUE_MAX_LENGTH
  rw [List.take_take]
  rfl

/-! ## Claims -/

/-- C1: for every database state and every listed pair (slot_of gives the
pair its slot), the query returns true exactly when the database holds a
record tagged P and the first four characters of the slot of F in the first
such record equal "true" ignoring case; it returns false when no record is
tagged P, and when the slot holds a proper initial part of "true" (the empty
text, "t", "tr" or "tru") followed by terminators. -/
theorem profile_feature_fetch_iff_slot_true (db : Option (List profile_db_entry_t))
    (P : profile_t) (F : profile_info_t) (off : Nat) (hPF : slot_of P F = some off) :
    (profile_feature_fetch db P F = true ↔
      ∃ l r, db = some l ∧ l.find? (fun e => decide (e.profile_id = P)) = some r ∧
        ((slot r off).take 4).map tolower = str "true") ∧
    ((∀ l, db = some l → ∀ r ∈ l, r.profile_id ≠ P) → profile_feature_fetch db P F = false) ∧
    (∀ l r k, db = some l → l.find? (fun e => decide (e.profile_id = P)) = some r → k < 4 →
      slot r off = (str "true").take k ++ List.replicate (VALUE_MAX_LENGTH - k) 0 →
      profile_feature_fetch db P F = false) := by
  have main : profile_feature_fetch db P F = true ↔
      ∃ l r, db = some l ∧ l.find? (fun e => decide (e.profile_id = P)) = some r ∧
        ((slot r off).take 4).map tolower = str "true" := by
    rw [profile_feature_fetch_eq, hPF]
    cases db with
    | none => simp [profile_entry_fetch]
    | some l =>
      simp only [profile_entry_fetch, fetch_walk_eq_find, begins_with_true_slot]
      cases hf : l.find? (fun e => decide (e.profile_id = P)) with
      | none => simp [hf]
      | some r => simp [hf]
  refine ⟨main, ?_, ?_⟩
  · intro habs
    rw [Bool.eq_false_iff]
    intro ht
    obtain ⟨l, r, hl, hr, _⟩ := main.mp ht
    exact habs l hl r (List.mem_of_find?_eq_some hr) (by simpa using List.find?_some hr)
  · intro l r k hl hr hk hs
    rw [Bool.eq_false_iff]
    intro ht
    obtain ⟨l2, r2, hl2, hr2, h4⟩ := main.mp ht
    rw [hl] at hl2
    injection hl2 with hl2
    subst hl2
    rw [hr] at hr2
    injection hr2 with hr2
    subst hr2
    rw [hs] at h4
    have : k = 0 ∨ k = 1 ∨ k = 2 ∨ k = 3 := by omega
    rcases this with rfl | rfl | rfl | rfl <;> revert h4 <;> decide

/-- Witness for C1: a record whose AVRCP 1.0.3 slot holds "TRUE". -/
theorem profile_feature_fetch_iff_slot_true_witness :
    slot_of AVRCP_ID AVRCP_0103_SUPPORT = some 6 ∧
      profile_feature_fetch
        (some [⟨AVRCP_ID, none, [0, 0, 0, 0, 0, 0] ++ str "TRUE" ++ [0, 0]⟩])
        AVRCP_ID AVRCP_0103_SUPPORT = true :=
  ⟨by decide,
    (profile_feature_fetch_iff_slot_true
      (some [⟨AVRCP_ID, none, [0, 0, 0, 0, 0, 0] ++ str "TRUE" ++ [0, 0]⟩])
      AVRCP_ID AVRCP_0103_SUPPORT 6 (by decide)).1.2
      ⟨[⟨AVRCP_ID, none, [0, 0, 0, 0, 0, 0] ++ str "TRUE" ++ [0, 0]⟩],
        ⟨AVRCP_ID, none, [0, 0, 0, 0, 0, 0] ++ str "TRUE" ++ [0, 0]⟩,
        rfl, by decide, by decide⟩⟩

/-- C2 (evaluation at the failing input): the file has no entry for
(AVRCP_ID, AVRCP_0103_SUPPORT), and after the load the query for that
pair returns true, because the ten bytes copied to the cover-art slot run on
into the neighbouring slot. -/
theorem unpopulated_slot_reads_true :
    values_for config_coverart_long AVRCP_ID AVRCP_0103_SUPPORT = [] ∧
      load_config config_coverart_long list_new =
        some [⟨AVRCP_ID, none, str "xxxxxxtrue" ++ [0, 0]⟩] ∧
      profile_feature_fetch (load_config config_coverart_long list_new)
        AVRCP_ID AVRCP_0103_SUPPORT = true := by
  decide

/-- C3 (evaluation at the failing input): with the single entry
(PBAP_ID, USE_SIM_SUPPORT, "false-true") the query for the written pair is
false, as the value does not begin with "true", but the query for the other
PBAP pair returns true. -/
theorem single_entry_enables_sibling :
    ¬ begins_with_true (str "false-true") ∧
      profile_feature_fetch (load_config config_use_sim_long list_new)
        PBAP_ID USE_SIM_SUPPORT = false ∧
      profile_feature_fetch (load_config config_use_sim_long list_new)
        PBAP_ID PBAP_0102_SUPPORT = true := by
  decide

/-- C4 (counterexample): after loading scenario S3 the query for
(MAP_ID, MAP_EMAIL_SUPPORT) does not return true. -/
theorem scenario_S3_not_true :
    ¬ (profile_feature_fetch (load_config config_S3 list_new) MAP_ID MAP_EMAIL_SUPPORT =
      true) := by
  decide

/-- C4 (amended): after loading scenario S3 into an empty database the query
for (MAP_ID, MAP_EMAIL_SUPPORT) returns false: the first four characters of
"truthful" are "trut", which do not equal "true" ignoring case. -/
theorem scenario_S3_returns_false :
    ((str "truthful").take 4).map tolower = str "trut" ∧
      ¬ begins_with_true (str "truthful") ∧
      profile_feature_fetch (load_config config_S3 list_new) MAP_ID MAP_EMAIL_SUPPORT =
        false := by
  decide

/-- C6 (evaluation at the failing input): after loading the single entry
(MAP_ID, MAP_EMAIL_SUPPORT, "enabled") the six bytes of the e-mail slot are
"enable" with no terminator among them, and the text read from the slot is
seven characters long: all seven characters of the value were copied. -/
theorem slot_holds_six_characters :
    load_config config_email_seven list_new =
        some [⟨MAP_ID, none, str "enabled" ++ [0, 0, 0, 0, 0]⟩] ∧
      slot ⟨MAP_ID, none, str "enabled" ++ [0, 0, 0, 0, 0]⟩ map_email_support = str "enable" ∧
      (0 : Nat) ∉ slot ⟨MAP_ID, none, str "enabled" ++ [0, 0, 0, 0, 0]⟩ map_email_support ∧
      strlen (member ⟨MAP_ID, none, str "enabled" ++ [0, 0, 0, 0, 0]⟩ map_email_support) = 7 := by
  decide

/-- C8 (evaluation at the failing input): the last entry for
(AVRCP_ID, AVRCP_0103_SUPPORT) has the value "true", yet after the load the
query for that pair returns false: the later eight-character cover-art value
overwrote the first two bytes of the 1.0.3 slot. -/
theorem last_occurrence_overwritten :
    (values_for config_0103_then_coverart AVRCP_ID AVRCP_0103_SUPPORT).getLast? =
        some (str "true") ∧
      begins_with_true (str "true") ∧
      load_config config_0103_then_coverart list_new =
        some [⟨AVRCP_ID, none, str "disabled" ++ str "ue" ++ [0, 0]⟩] ∧
      profile_feature_fetch (load_config config_0103_then_coverart list_new)
        AVRCP_ID AVRCP_0103_SUPPORT = false := by
  decide

/-! ## Lemmas: what a slot write stores -/

theorem getD_calloc_length (P : profile_t) (l : List profile_db_entry_t)
    (hwf : ∀ r ∈ l, r.profile_feature_type.length = PROFILE_FEATURE_TYPE_SIZE) :
    ((fetch_walk P l).getD (osi_calloc P)).profile_feature_type.length =
      PROFILE_FEATURE_TYPE_SIZE := by
  cases h : fetch_walk P l with
  | none => simp [osi_calloc]
  | some r => exact hwf r (fetch_walk_some h).2

/-! ## Lemmas: invariants of the list -/

theorem mem_store_walk (P : profile_t) (e x : profile_db_entry_t)
    (l : List profile_db_entry_t) (hx : x ∈ store_walk P e l) : x ∈ l ∨ x = e := by
  induction l with
  | nil => simp [store_walk] at hx
  | cons a rest ih =>
    by_cases hP : P = a.profile_id
    · simp [store_walk, hP] at hx
      rcases hx with hx | hx
      · exact Or.inr hx
      · exact Or.inl (List.mem_cons_of_mem _ hx)
    · simp [store_walk, hP] at hx
      rcases hx with hx | hx
      · exact Or.inl (hx ▸ List.mem_cons_self _ _)
      · rcases ih hx with h | h
        · exact Or.inl (List.mem_cons_of_mem _ h)
        · exact Or.inr h

theorem mem_put (P : profile_t) (e x : profile_db_entry_t) (l : List profile_db_entry_t)
    (hx : x ∈ put P e l) : x ∈ l ∨ x = e := by
  unfold put at hx
  split at hx
  · exact mem_store_walk P e x l hx
  · simpa using hx

theorem put_tags_nodup (P : profile_t) (e : profile_db_entry_t) (he : e.profile_id = P)
    (l : List profile_db_entry_t) (hl : (l.map (·.profile_id)).Nodup) :
    ((put P e l).map (·.profile_id)).Nodup := by
  unfold put
  cases h : fetch_walk P l with
  | some r =>
    simp only [store_walk_tags P e he]
    exact hl
  | none =>
    have hn := fetch_walk_eq_none.1 h
    simp only [List.map_append, List.map_cons, List.map_nil]
    rw [List.nodup_append]
    refine ⟨hl, List.nodup_singleton _, ?_⟩
    intro t ht1 ht2
    obtain ⟨r, hr, hrt⟩ := List.mem_map.1 ht1
    have : t = P := by simpa [he] using ht2
    exact hn r hr (hrt.trans this)

theorem load_all_cons (db : Option (List profile_db_entry_t))
    (e : profile_t × List Nat × List Nat) (es : List (profile_t × List Nat × List Nat)) :
    load_all db (e :: es) = load_all (load_to_database db e.1 e.2.1 e.2.2) es := rfl

/-- One call of `load_to_database` on a constructed list: the list it leaves
and the record of the profile in it. -/
theorem load_step (l : List profile_db_entry_t) (P : profile_t) (key value : List Nat) :
    ∃ l2, load_to_database (some l) P key value = some l2 ∧
      ((l.map (·.profile_id)).Nodup → (l2.map (·.profile_id)).Nodup) ∧
      ((∀ r ∈ l, r.profile_feature_type.length = PROFILE_FEATURE_TYPE_SIZE) →
        ∀ r ∈ l2, r.profile_feature_type.length = PROFILE_FEATURE_TYPE_SIZE) := by
  rw [load_to_database_some]
  by_cases hP : P = END_OF_PROFILE_LIST
  · rw [if_pos hP]
    exact ⟨l, rfl, id, id⟩
  · rw [if_neg hP]
    have htag : (write_of P key value ((fetch_walk P l).getD (osi_calloc P))).profile_id = P :=
      (write_of_tag P key value _).trans (getD_calloc_tag P l)
    refine ⟨_, rfl, put_tags_nodup P _ htag l, ?_⟩
    intro hwf x hx
    rcases mem_put P _ x l hx with h | h
    · exact hwf x h
    · rw [h, write_of_length]
      exact getD_calloc_length P l hwf

/-- Every sequence of `load_to_database` calls on a constructed list leaves a
constructed list, with pairwise distinct tags and full unions when the list
it started from had them. -/
theorem load_all_inv (es : List (profile_t × List Nat × List Nat)) :
    ∀ l : List profile_db_entry_t, ∃ l2, load_all (some l) es = some l2 ∧
      ((l.map (·.profile_id)).Nodup → (l2.map (·.profile_id)).Nodup) ∧
      ((∀ r ∈ l, r.profile_feature_type.length = PROFILE_FEATURE_TYPE_SIZE) →
        ∀ r ∈ l2, r.profile_feature_type.length = PROFILE_FEATURE_TYPE_SIZE) := by
  induction es with
  | nil =>
    intro l
    exact ⟨l, rfl, id, id⟩
  | cons e es ih =>
    intro l
    obtain ⟨l1, h1, n1, w1⟩ := load_step l e.1 e.2.1 e.2.2
    obtain ⟨l2, h2, n2, w2⟩ := ih l1
    rw [load_all_cons, h1]
    exact ⟨l2, h2, fun h => n2 (n1 h), fun h => w2 (w1 h)⟩

theorem simDb_refl (a : Option (List profile_db_entry_t)) : simDb a a :=
  ⟨rfl, fun _ => Or.inl rfl⟩

theorem calloc_not_true (P : profile_t) (off : Nat) :
    ¬ begins_with_true (member (osi_calloc P) off) := by
  rw [begins_with_true_iff]
  rintro ⟨h, _⟩
  have h0 : (member (osi_calloc P) off).getD 0 0 = 0 := by
    simp only [member, osi_calloc, List.getD_eq_getElem?_getD, List.getElem?_drop,
      List.getElem?_replicate]
    split <;> rfl
  rw [h0, tolower_zero] at h
  exact absurd h (by decide)

theorem simDb_query {a b : Option (List profile_db_entry_t)} (h : simDb a b)
    (Q : profile_t) (F : profile_info_t) :
    profile_feature_fetch b Q F = profile_feature_fetch a Q F := by
  rw [profile_feature_fetch_eq, profile_feature_fetch_eq]
  rcases h.2 Q with h1 | ⟨h1, h2⟩
  · rw [h1]
  · rw [h1, h2]
    cases hs : slot_of Q F with
    | none => rfl
    | some off => simp [calloc_not_true]

/-- A call of `load_to_database` whose key selects no slot writer of the
profile leaves the list as it was or with one fresh record appended. -/
theorem load_to_database_no_write (a : Option (List profile_db_entry_t)) (P : profile_t)
    (key value : List Nat) (hb : (get_feature key).bind (slot_of P) = none) :
    load_to_database a P key value = a ∨
      ∃ l, a = some l ∧ (∀ r ∈ l, r.profile_id ≠ P) ∧
        load_to_database a P key value = some (l ++ [osi_calloc P]) := by
  have hw : ∀ e, write_of P key value e = e := by
    intro e
    simp [write_of, hb]
  cases a with
  | none =>
    left
    exact load_to_database_none P key value
  | some l =>
    rw [load_to_database_some]
    by_cases hP : P = END_OF_PROFILE_LIST
    · left
      rw [if_pos hP]
    · rw [if_neg hP, hw]
      cases hf : fetch_walk P l with
      | some r =>
        left
        simp [put, hf, store_walk_self hf]
      | none =>
        right
        exact ⟨l, rfl, fetch_walk_eq_none.1 hf, by simp [put, hf]⟩

theorem simDb_of_fresh {a b : Option (List profile_db_entry_t)} {P : profile_t}
    (h : b = a ∨ ∃ l, a = some l ∧ (∀ r ∈ l, r.profile_id ≠ P) ∧
      b = some (l ++ [osi_calloc P])) : simDb a b := by
  rcases h with h | ⟨l, ha, hn, hb⟩
  · rw [h]; exact simDb_refl a
  · subst ha
    subst hb
    refine ⟨rfl, fun Q => ?_⟩
    simp only [profile_entry_fetch, fetch_walk_append]
    cases hq : fetch_walk Q l with
    | some r => left; rfl
    | none =>
      by_cases hQ : Q = P
      · subst hQ
        right
        simp [fetch_walk, osi_calloc]
      · left
        have : ¬ Q = (osi_calloc P).profile_id := hQ
        simp [fetch_walk, this]

/-- C10: for every database state, profile P, value, and key that resolves
to a feature with no slot in the payload of P, load_to_database leaves every
record of the list as it was: the list is unchanged, or (when no record was
tagged P) it is the old list with one fresh all-zero record for P appended;
every query returns the same result before and after. -/
theorem foreign_feature_writes_nothing (db : Option (List profile_db_entry_t))
    (P : profile_t) (key value : List Nat) (G : profile_info_t)
    (hG : get_feature key = some G) (hPG : slot_of P G = none) :
    (load_to_database db P key value = db ∨
      ∃ l, db = some l ∧ (∀ r ∈ l, r.profile_id ≠ P) ∧
        load_to_database db P key value = some (l ++ [osi_calloc P])) ∧
      ∀ Q F, profile_feature_fetch (load_to_database db P key value) Q F =
        profile_feature_fetch db Q F := by
  have h := load_to_database_no_write db P key value (by simp [hG, hPG])
  exact ⟨h, fun Q F => simDb_query (simDb_of_fresh h) Q F⟩

/-- Witness for C10: a PBAP key under AVRCP_ID, with a long value, on a list
that holds an AVRCP record. -/
theorem foreign_feature_writes_nothing_witness :
    get_feature (str "USE_SIM_SUPPORT") = some USE_SIM_SUPPORT ∧
      slot_of AVRCP_ID USE_SIM_SUPPORT = none ∧
      load_to_database (some [⟨AVRCP_ID, none, str "true" ++ [0, 0, 0, 0, 0, 0, 0, 0]⟩])
        AVRCP_ID (str "USE_SIM_SUPPORT") (str "a value of many characters") =
        some [⟨AVRCP_ID, none, str "true" ++ [0, 0, 0, 0, 0, 0, 0, 0]⟩] := by
  refine ⟨by decide, by decide, ?_⟩
  obtain ⟨h2, _⟩ := foreign_feature_writes_nothing
    (some [⟨AVRCP_ID, none, str "true" ++ [0, 0, 0, 0, 0, 0, 0, 0]⟩])
    AVRCP_ID (str "USE_SIM_SUPPORT") (str "a value of many characters") USE_SIM_SUPPORT
    (by decide) (by decide)
  rcases h2 with h2 | ⟨l, hl, hn, _⟩
  · exact h2
  · injection hl with hl
    subst hl
    exact absurd rfl (hn _ (List.mem_cons_self _ _))

/-! ## The name resolver, in terms of initial parts -/

theorem strlen_le_length (s : List Nat) : strlen s ≤ s.length := by
  induction s with
  | nil => simp [strlen]
  | cons c cs ih =>
    by_cases hc : c = 0
    · simp [strlen, hc]
    · simp [strlen, hc, ih]

theorem strlen_eq_length {s : List Nat} (h : ∀ c ∈ s, c ≠ 0) : strlen s = s.length := by
  induction s with
  | nil => rfl
  | cons c cs ih =>
    have hc : c ≠ 0 := h c (List.mem_cons_self _ _)
    simp [strlen, hc, ih fun x hx => h x (List.mem_cons_of_mem _ hx)]

/-- The comparison the resolvers make: `strncasecmp(input, name, strlen(input))`
is zero exactly when the input is, ignoring case, an initial part of the
name. -/
theorem strncasecmp_strlen (s : List Nat) :
    ∀ t : List Nat, (∀ c ∈ t, c ≠ 0) →
      (strncasecmp s t (strlen s) = 0 ↔ begins_name s t) := by
  induction s with
  | nil =>
    intro t _
    simp [strlen, strncasecmp_zero, begins_name]
  | cons c cs ih =>
    intro t ht
    by_cases hc : c = 0
    · simp [strlen, hc, strncasecmp_zero, begins_name]
    · have hl : strlen (c :: cs) = strlen cs + 1 := by simp [strlen, hc]
      unfold begins_name
      rw [hl, strncasecmp_succ_eq_zero]
      cases t with
      | nil =>
        have : ¬ tolower c = 0 := fun h => hc ((tolower_eq_zero c).1 h)
        simp [tolower_zero, this]
      | cons d ds =>
        have ih2 := ih ds fun x hx => ht x (List.mem_cons_of_mem _ hx)
        unfold begins_name at ih2
        simp only [List.headD_cons, List.tail_cons, hc, false_or, ih2, List.length_cons,
          Nat.add_le_add_iff_right, List.take_succ_cons, List.map_cons, List.cons.injEq]
        tauto

theorem profile_name_nonzero (p : profile_t) : ∀ c ∈ profile_name_string_ p, c ≠ 0 := by
  cases p <;> decide

theorem profile_feature_nonzero (f : profile_info_t) :
    ∀ c ∈ profile_feature_string_ f, c ≠ 0 := by
  cases f <;> decide

theorem get_profile_eq (s : List Nat) :
    get_profile s =
      [AVRCP_ID, PBAP_ID, MAP_ID].find? fun p =>
        decide (begins_name s (profile_name_string_ p)) := by
  unfold get_profile
  congr 1
  funext p
  exact decide_eq_decide.2 (strncasecmp_strlen s _ (profile_name_nonzero p))

theorem get_feature_eq (s : List Nat) :
    get_feature s =
      [VERSION, AVRCP_COVERART_SUPPORT, AVRCP_0103_SUPPORT, USE_SIM_SUPPORT,
        MAP_EMAIL_SUPPORT, PBAP_0102_SUPPORT].find? fun f =>
        decide (begins_name s (profile_feature_string_ f)) := by
  unfold get_feature
  congr 1
  funext f
  exact decide_eq_decide.2 (strncasecmp_strlen s _ (profile_feature_nonzero f))

/-- C11: for every database state and every (profile, feature) pair that is
not one of the five listed pairs (the pairs with VERSION, the pairs that
combine a profile with a feature of another profile, and the pairs with a
sentinel identifier among them), the query returns false. -/
theorem unlisted_pair_returns_false (db : Option (List profile_db_entry_t))
    (P : profile_t) (F : profile_info_t) (h : (P, F) ∉ listed_pairs) :
    profile_feature_fetch db P F = false := by
  have hs : slot_of P F = none := by
    cases P <;> cases F <;> first | rfl | exact absurd (by decide) h
  rw [profile_feature_fetch_eq, hs]
  cases profile_entry_fetch db P <;> rfl

/-- Witness for C11: a PBAP feature asked of an AVRCP record whose first
slot holds "true". -/
theorem unlisted_pair_returns_false_witness :
    (AVRCP_ID, USE_SIM_SUPPORT) ∉ listed_pairs ∧
      profile_feature_fetch (some [⟨AVRCP_ID, none, str "true" ++ [0, 0, 0, 0, 0, 0, 0, 0]⟩])
        AVRCP_ID USE_SIM_SUPPORT = false :=
  ⟨by decide, unlisted_pair_returns_false _ AVRCP_ID USE_SIM_SUPPORT (by decide)⟩

/-- C12 (counterexample): the input "AVRCP_ID_EXTRA" agrees with "AVRCP_ID" on
the first min(14, 8) characters, so the resolver worded as in the
specification gives AVRCP_ID, but get_profile gives the sentinel. -/
theorem longer_input_not_recognised :
    agrees_on_min (str "AVRCP_ID_EXTRA") (profile_name_string_ AVRCP_ID) ∧
      get_profile_on_min (str "AVRCP_ID_EXTRA") = some AVRCP_ID ∧
      get_profile (str "AVRCP_ID_EXTRA") = none := by
  decide

/-- C12 (amended): for every input string, get_profile (resp. get_feature)
returns the first enumerator in declaration order whose canonical name is at
least as long as the input and agrees with it, ignoring case, on the first
len(input) characters, and returns the sentinel when there is none; an input
that extends a canonical name, such as "AVRCP_ID_EXTRA", is not recognised. -/
theorem resolver_compares_input_length :
    (∀ s : List Nat, get_profile s =
      [AVRCP_ID, PBAP_ID, MAP_ID].find? fun p =>
        decide (begins_name s (profile_name_string_ p))) ∧
    (∀ s : List Nat, get_feature s =
      [VERSION, AVRCP_COVERART_SUPPORT, AVRCP_0103_SUPPORT, USE_SIM_SUPPORT,
        MAP_EMAIL_SUPPORT, PBAP_0102_SUPPORT].find? fun f =>
        decide (begins_name s (profile_feature_string_ f))) ∧
    (∀ (p : profile_t) (extra : List Nat), strlen extra ≠ 0 →
      ¬ begins_name (profile_name_string_ p ++ extra) (profile_name_string_ p)) ∧
    get_profile (str "AVRCP_ID_EXTRA") = none := by
  refine ⟨get_profile_eq, get_feature_eq, ?_, by decide⟩
  intro p extra hx hb
  have h1 : strlen (profile_name_string_ p ++ extra) =
      (profile_name_string_ p).length + strlen extra := by
    have : ∀ n : List Nat, (∀ c ∈ n, c ≠ 0) → strlen (n ++ extra) = n.length + strlen extra := by
      intro n
      induction n with
      | nil => intro _; simp
      | cons c cs ih =>
        intro hn
        have hc : c ≠ 0 := hn c (List.mem_cons_self _ _)
        simp [strlen, hc, ih fun x hx => hn x (List.mem_cons_of_mem _ hx)]
        omega
    exact this _ (profile_name_nonzero p)
  have h2 := hb.1
  omega

/-- Witness for C12: the input that extends "AVRCP_ID" by "_EXTRA". -/
theorem resolver_compares_input_length_witness :
    strlen (str "_EXTRA") ≠ 0 ∧
      ¬ begins_name (profile_name_string_ AVRCP_ID ++ str "_EXTRA")
        (profile_name_string_ AVRCP_ID) :=
  ⟨by decide, resolver_compares_input_length.2.2.1 AVRCP_ID (str "_EXTRA") (by decide)⟩

/-- A case variant of a name `n` is an initial part of a name `t` exactly when
`n` itself is, ignoring case. -/
theorem variant_begins (s n t : List Nat) (hv : case_variant s n) (hn : ∀ c ∈ n, c ≠ 0) :
    begins_name s t ↔
      n.length ≤ t.length ∧ n.map tolower = (t.take n.length).map tolower := by
  unfold case_variant at hv
  have hs : ∀ c ∈ s, c ≠ 0 := by
    intro c hc h0
    have h1 : tolower c ∈ n.map tolower := hv ▸ List.mem_map_of_mem tolower hc
    obtain ⟨d, hd, hdc⟩ := List.mem_map.1 h1
    rw [h0, tolower_zero] at hdc
    exact hn d hd ((tolower_eq_zero d).1 hdc)
  have hlen : s.length = n.length := by
    have := congrArg List.length hv
    simpa using this
  unfold begins_name
  rw [strlen_eq_length hs, List.take_length, hlen, hv]

theorem get_profile_variant (p : profile_t) (s : List Nat)
    (hv : case_variant s (profile_name_string_ p)) :
    get_profile s =
      [AVRCP_ID, PBAP_ID, MAP_ID].find? fun q =>
        decide ((profile_name_string_ p).length ≤ (profile_name_string_ q).length ∧
          (profile_name_string_ p).map tolower =
            ((profile_name_string_ q).take (profile_name_string_ p).length).map tolower) := by
  rw [get_profile_eq]
  congr 1
  funext q
  exact decide_eq_decide.2 (variant_begins s _ _ hv (profile_name_nonzero p))

theorem get_feature_variant (f : profile_info_t) (s : List Nat)
    (hv : case_variant s (profile_feature_string_ f)) :
    get_feature s =
      [VERSION, AVRCP_COVERART_SUPPORT, AVRCP_0103_SUPPORT, USE_SIM_SUPPORT,
        MAP_EMAIL_SUPPORT, PBAP_0102_SUPPORT].find? fun g =>
        decide ((profile_feature_string_ f).length ≤ (profile_feature_string_ g).length ∧
          (profile_feature_string_ f).map tolower =
            ((profile_feature_string_ g).take (profile_feature_string_ f).length).map
              tolower) := by
  rw [get_feature_eq]
  congr 1
  funext g
  exact decide_eq_decide.2 (variant_begins s _ _ hv (profile_feature_nonzero f))

/-- C13: every upper/lower-case variant of the canonical name of a profile
in AVRCP_ID, PBAP_ID, MAP_ID resolves to that profile, and every case
variant of the canonical name of a feature in VERSION,
AVRCP_COVERART_SUPPORT, AVRCP_0103_SUPPORT, USE_SIM_SUPPORT,
MAP_EMAIL_SUPPORT, PBAP_0102_SUPPORT resolves to that feature, although the
resolver returns the first match in declaration order. -/
theorem full_names_resolve_to_themselves :
    (∀ (p : profile_t) (s : List Nat), p ∈ [AVRCP_ID, PBAP_ID, MAP_ID] →
      case_variant s (profile_name_string_ p) → get_profile s = some p) ∧
    (∀ (f : profile_info_t) (s : List Nat),
      f ∈ [VERSION, AVRCP_COVERART_SUPPORT, AVRCP_0103_SUPPORT, USE_SIM_SUPPORT,
        MAP_EMAIL_SUPPORT, PBAP_0102_SUPPORT] →
      case_variant s (profile_feature_string_ f) → get_feature s = some f) := by
  constructor
  · intro p s hp hv
    rw [get_profile_variant p s hv]
    cases p
    · decide
    · decide
    · decide
    · exact absurd hp (by decide)
  · intro f s hf hv
    rw [get_feature_variant f s hv]
    cases f
    · decide
    · decide
    · decide
    · decide
    · decide
    · decide
    · exact absurd hf (by decide)

/-- Witness for C13: mixed-case spellings of a section name and of a key. -/
theorem full_names_resolve_to_themselves_witness :
    (case_variant (str "Pbap_Id") (profile_name_string_ PBAP_ID) ∧
      get_profile (str "Pbap_Id") = some PBAP_ID) ∧
    (case_variant (str "avrcp_0103_Support") (profile_feature_string_ AVRCP_0103_SUPPORT) ∧
      get_feature (str "avrcp_0103_Support") = some AVRCP_0103_SUPPORT) :=
  ⟨⟨by decide, full_names_resolve_to_themselves.1 PBAP_ID (str "Pbap_Id") (by decide)
      (by decide)⟩,
    ⟨by decide, full_names_resolve_to_themselves.2 AVRCP_0103_SUPPORT
      (str "avrcp_0103_Support") (by decide) (by decide)⟩⟩

/-- C17: an input that is, ignoring case, an initial part of at least one
canonical name resolves to the first such enumerator in declaration order:
get_profile (resp. get_feature) returns an enumerator p whose name begins
with the input, and no enumerator declared before p has a name that begins
with the input.  The section "A" resolves to AVRCP_ID, the key "AVRCP_" to
AVRCP_COVERART_SUPPORT, and the empty string to AVRCP_ID as a section and to
VERSION as a key. -/
theorem short_input_resolves_to_first :
    (∀ (s : List Nat) (q : profile_t), q ∈ [AVRCP_ID, PBAP_ID, MAP_ID] →
      begins_name s (profile_name_string_ q) →
      ∃ p pre post, get_profile s = some p ∧ begins_name s (profile_name_string_ p) ∧
        [AVRCP_ID, PBAP_ID, MAP_ID] = pre ++ p :: post ∧
        ∀ r ∈ pre, ¬ begins_name s (profile_name_string_ r)) ∧
    (∀ (s : List Nat) (g : profile_info_t),
      g ∈ [VERSION, AVRCP_COVERART_SUPPORT, AVRCP_0103_SUPPORT, USE_SIM_SUPPORT,
        MAP_EMAIL_SUPPORT, PBAP_0102_SUPPORT] →
      begins_name s (profile_feature_string_ g) →
      ∃ f pre post, get_feature s = some f ∧ begins_name s (profile_feature_string_ f) ∧
        [VERSION, AVRCP_COVERART_SUPPORT, AVRCP_0103_SUPPORT, USE_SIM_SUPPORT,
          MAP_EMAIL_SUPPORT, PBAP_0102_SUPPORT] = pre ++ f :: post ∧
        ∀ r ∈ pre, ¬ begins_name s (profile_feature_string_ r)) ∧
    get_profile (str "A") = some AVRCP_ID ∧
    get_feature (str "AVRCP_") = some AVRCP_COVERART_SUPPORT ∧
    get_profile (str "") = some AVRCP_ID ∧
    get_feature (str "") = some VERSION := by
  refine ⟨?_, ?_, by decide, by decide, by decide, by decide⟩
  · intro s q hq hb
    rw [get_profile_eq]
    have hsome : ([AVRCP_ID, PBAP_ID, MAP_ID].find? fun p =>
        decide (begins_name s (profile_name_string_ p))).isSome := by
      rw [List.find?_isSome]
      exact ⟨q, hq, by simpa using hb⟩
    obtain ⟨p, hp⟩ := Option.isSome_iff_exists.1 hsome
    obtain ⟨h1, pre, post, h2, h3⟩ := List.find?_eq_some.1 hp
    exact ⟨p, pre, post, hp, by simpa using h1, h2, fun r hr => by simpa using h3 r hr⟩
  · intro s g hg hb
    rw [get_feature_eq]
    have hsome : ([VERSION, AVRCP_COVERART_SUPPORT, AVRCP_0103_SUPPORT, USE_SIM_SUPPORT,
        MAP_EMAIL_SUPPORT, PBAP_0102_SUPPORT].find? fun f =>
        decide (begins_name s (profile_feature_string_ f))).isSome := by
      rw [List.find?_isSome]
      exact ⟨g, hg, by simpa using hb⟩
    obtain ⟨f, hf⟩ := Option.isSome_iff_exists.1 hsome
    obtain ⟨h1, pre, post, h2, h3⟩ := List.find?_eq_some.1 hf
    exact ⟨f, pre, post, hf, by simpa using h1, h2, fun r hr => by simpa using h3 r hr⟩

/-- Witness for C17: the key "avrcp" begins the names of two features, and
resolves to the one declared first. -/
theorem short_input_resolves_to_first_witness :
    (AVRCP_0103_SUPPORT ∈ [VERSION, AVRCP_COVERART_SUPPORT, AVRCP_0103_SUPPORT,
        USE_SIM_SUPPORT, MAP_EMAIL_SUPPORT, PBAP_0102_SUPPORT] ∧
      begins_name (str "avrcp") (profile_feature_string_ AVRCP_0103_SUPPORT)) ∧
    (get_feature (str "avrcp")).isSome = true := by
  refine ⟨⟨by decide, by decide⟩, ?_⟩
  obtain ⟨f, _, _, hf, _⟩ := short_input_resolves_to_first.2.1 (str "avrcp")
    AVRCP_0103_SUPPORT (by decide) (by decide)
  rw [hf]
  rfl

/-! ## Life cycle and the calls a configuration makes -/

theorem load_all_append (db : Option (List profile_db_entry_t))
    (es1 es2 : List (profile_t × List Nat × List Nat)) :
    load_all db (es1 ++ es2) = load_all (load_all db es1) es2 := by
  simp [load_all, List.foldl_append]

theorem load_section_eq_load_all (P : profile_t) (es : List profile_entry_t) :
    ∀ db, load_section P es db = load_all db (es.map fun e => (P, e.key, e.value)) := by
  induction es with
  | nil => intro db; rfl
  | cons e es ih =>
    intro db
    rw [List.map_cons, load_all_cons]
    exact ih _

theorem load_config_eq_load_all (config : config_t) :
    ∀ db, load_config config db = load_all db (entries_of config) := by
  obtain ⟨secs⟩ := config
  unfold load_config entries_of
  simp only
  induction secs with
  | nil => intro db; rfl
  | cons sec secs ih =>
    intro db
    simp only [List.foldl_cons, List.flatMap_cons]
    rw [load_all_append, ih]
    congr 1
    unfold section_step
    cases get_profile sec.name with
    | none => rfl
    | some P => exact load_section_eq_load_all P sec.entries db

theorem fetch_empty (P : profile_t) (F : profile_info_t) :
    profile_feature_fetch (some []) P F = false := by
  rw [profile_feature_fetch_eq]
  rfl

theorem fetch_null (P : profile_t) (F : profile_info_t) :
    profile_feature_fetch none P F = false := by
  rw [profile_feature_fetch_eq]
  rfl

/-- C14: safe default.  A parsed configuration without sections leaves
every list as it is, so an init whose configuration has no sections, or
whose profile_config_init fails, ends with the empty list; this is the case
when both files are absent or empty and when the parser fails on the file
that stat found (the empty tree of config_new_empty is substituted); on the
empty list the query returns false for every (profile, feature) pair. -/
theorem empty_configuration_leaves_database_empty :
    (∀ db, load_config ⟨[]⟩ db = db) ∧
    (∀ env : env_t, (∀ c, profile_config_init env none = some c → c.sections = []) →
      profile_lazy_init_ env initial_state = ⟨some [], profile_config_init env none⟩) ∧
    (∀ env : env_t, env.preferred_stat = false → env.base_stat = false →
      env.new_empty = true → profile_config_init env none = some ⟨[]⟩) ∧
    (∀ env : env_t, env.preferred_stat = true → env.preferred_new = none →
      env.new_empty = true → profile_config_init env none = some ⟨[]⟩) ∧
    (∀ env : env_t, env.preferred_stat = false → env.base_stat = true →
      env.base_new = none → env.new_empty = true →
      profile_config_init env none = some ⟨[]⟩) ∧
    (∀ P F, profile_feature_fetch (some []) P F = false) := by
  refine ⟨fun db => rfl, ?_, ?_, ?_, ?_, fetch_empty⟩
  · intro env h
    unfold profile_lazy_init_ initial_state load_config_with_init
    simp only
    cases hc : profile_config_init env none with
    | none => rfl
    | some c =>
      have hs := h c hc
      obtain ⟨secs⟩ := c
      simp only at hs
      subst hs
      rfl
  · intro env h1 h2 h3
    simp [profile_config_init, config_new_empty, h1, h2, h3]
  · intro env h1 h2 h3
    simp [profile_config_init, config_new_empty, h1, h2, h3]
  · intro env h1 h2 h3 h4
    simp [profile_config_init, config_new_empty, h1, h2, h3, h4]

/-- Witness for C14: the preferred file is absent and the parser fails on the
system default. -/
theorem empty_configuration_leaves_database_empty_witness :
    profile_config_init ⟨false, none, true, none, true⟩ none = some ⟨[]⟩ ∧
      profile_lazy_init_ ⟨false, none, true, none, true⟩ initial_state =
        ⟨some [], some ⟨[]⟩⟩ := by
  have h0 : profile_config_init ⟨false, none, true, none, true⟩ none = some ⟨[]⟩ := rfl
  have h : ∀ c, profile_config_init ⟨false, none, true, none, true⟩ none = some c →
      c.sections = [] := by
    intro c hc
    rw [h0] at hc
    injection hc with hc
    rw [← hc]
  exact ⟨h0, empty_configuration_leaves_database_empty.2.1 ⟨false, none, true, none, true⟩ h⟩

/-- A load on a constructed list leaves a constructed list. -/
theorem load_config_some (config : config_t) (l : List profile_db_entry_t) :
    (load_config config (some l)).isSome = true := by
  rw [load_config_eq_load_all]
  obtain ⟨l2, h2, _⟩ := load_all_inv (entries_of config) l
  rw [h2]
  rfl

theorem lazy_init_list_some (env : env_t) (s : state_t) :
    (profile_lazy_init_ env s).profile_conf_list.isSome = true := by
  unfold profile_lazy_init_
  cases hl : s.profile_conf_list with
  | some l =>
    simp only [hl]
    rfl
  | none =>
    simp only [load_config_with_init]
    cases hc : profile_config_init env s.config with
    | none => rfl
    | some c => exact load_config_some c []

/-- C15: init is idempotent.  On the state profile_lazy_init_ produced, for
every configuration (with values of any length), the list pointer is not
NULL; on every state whose list pointer is not NULL profile_lazy_init_
changes nothing; so a second profile_lazy_init_ (whatever the files then
hold) changes nothing, and every query returns the same result after one
init and after two. -/
theorem lazy_init_twice_changes_nothing :
    (∀ (env1 env2 : env_t) (s : state_t),
      profile_lazy_init_ env2 (profile_lazy_init_ env1 s) = profile_lazy_init_ env1 s) ∧
    (∀ (env : env_t) (s : state_t),
      (profile_lazy_init_ env s).profile_conf_list.isSome = true) ∧
    (∀ (env : env_t) (s : state_t), s.profile_conf_list.isSome = true →
      profile_lazy_init_ env s = s) ∧
    (∀ (env1 env2 : env_t) (s : state_t) (P : profile_t) (F : profile_info_t),
      profile_feature_fetch
          (profile_lazy_init_ env2 (profile_lazy_init_ env1 s)).profile_conf_list P F =
        profile_feature_fetch (profile_lazy_init_ env1 s).profile_conf_list P F) := by
  have fixed : ∀ (env : env_t) (s : state_t), s.profile_conf_list.isSome = true →
      profile_lazy_init_ env s = s := by
    intro env s hs
    obtain ⟨l, hl⟩ := Option.isSome_iff_exists.1 hs
    simp [profile_lazy_init_, hl]
  have first : ∀ (env1 env2 : env_t) (s : state_t),
      profile_lazy_init_ env2 (profile_lazy_init_ env1 s) = profile_lazy_init_ env1 s :=
    fun env1 env2 s => fixed env2 _ (lazy_init_list_some env1 s)
  exact ⟨first, lazy_init_list_some, fixed, fun env1 env2 s P F => by rw [first]⟩

/-- Witness for C15: a state whose list holds the AVRCP record of scenario
S6, and an environment whose preferred file is scenario S3. -/
theorem lazy_init_twice_changes_nothing_witness :
    (load_config config_S6 list_new).isSome = true ∧
      profile_lazy_init_ ⟨true, some config_S3, false, none, true⟩
          ⟨load_config config_S6 list_new, some config_S6⟩ =
        ⟨load_config config_S6 list_new, some config_S6⟩ :=
  ⟨by decide, lazy_init_twice_changes_nothing.2.2.1 ⟨true, some config_S3, false, none, true⟩
    ⟨load_config config_S6 list_new, some config_S6⟩ (by decide)⟩

/-- C20: while the list pointer is NULL the query returns false for every
(profile, feature) pair; that is the state before the first init and the
state profile_conf_clean_up leaves; and a profile_lazy_init_ that follows a
cleanup does what a first init does in the same environment: it builds a new
list and loads the configuration, with the same result and so the same
query results. -/
theorem null_list_answers_disabled :
    (∀ P F, profile_feature_fetch none P F = false) ∧
    initial_state.profile_conf_list = none ∧
    (∀ s, (profile_conf_clean_up s).profile_conf_list = none) ∧
    (∀ (env : env_t) (s : state_t),
      profile_lazy_init_ env (profile_conf_clean_up s) = profile_lazy_init_ env initial_state) ∧
    (∀ (env : env_t) (s : state_t),
      profile_lazy_init_ env (profile_conf_clean_up s) =
        load_config_with_init env ⟨list_new, none⟩) ∧
    (∀ (env : env_t) (s : state_t) (c : config_t), profile_config_init env none = some c →
      profile_lazy_init_ env (profile_conf_clean_up s) =
        ⟨load_config c list_new, some c⟩) :=
  ⟨fetch_null, rfl, fun _ => rfl, fun _ _ => rfl, fun _ _ => rfl, by
    intro env s c hc
    simp [profile_lazy_init_, profile_conf_clean_up, load_config_with_init, hc]⟩

/-- Witness for C20: cleanup after an init on scenario S6, then a new init on
the same file. -/
theorem null_list_answers_disabled_witness :
    profile_config_init ⟨true, some config_S6, false, none, true⟩ none = some config_S6 ∧
      profile_lazy_init_ ⟨true, some config_S6, false, none, true⟩
        (profile_conf_clean_up ⟨some [osi_calloc MAP_ID], some config_S3⟩) =
        ⟨load_config config_S6 list_new, some config_S6⟩ :=
  ⟨rfl, null_list_answers_disabled.2.2.2.2.2 ⟨true, some config_S6, false, none, true⟩
    ⟨some [osi_calloc MAP_ID], some config_S3⟩ config_S6 rfl⟩

/-- C16 (evaluation at the failing input): on a list whose PBAP record has
"true" in the 1.0.2 slot, load_to_database for the key USE_SIM_SUPPORT with
the seven-character value "unknown" changes the sibling slot as well: the
1.0.2 slot then holds "nrue" and its query turns from true to false. -/
theorem slot_write_reaches_sibling :
    profile_feature_fetch db_pbap_0102_true PBAP_ID PBAP_0102_SUPPORT = true ∧
      load_to_database db_pbap_0102_true PBAP_ID (str "USE_SIM_SUPPORT") (str "unknown") =
        some [⟨PBAP_ID, none, str "unknow" ++ str "nrue" ++ [0, 0]⟩] ∧
      slot ⟨PBAP_ID, none, str "unknow" ++ str "nrue" ++ [0, 0]⟩ pbap_0102_support =
        str "nrue" ++ [0, 0] ∧
      profile_feature_fetch (some [⟨PBAP_ID, none, str "unknow" ++ str "nrue" ++ [0, 0]⟩])
        PBAP_ID PBAP_0102_SUPPORT = false := by
  decide

/-! ## Which records a load installs -/

end ProfileConfig
